import Mathlib

/-!
Shallow embedding of the `cache-poisoning` workflow audit
(`src/audit/cache_poisoning.rs`): its registries of cache-aware and
publisher actions, the publishing-scenario detector, the cache-usage
evaluator and the finding synthesis, together with theorems checking the
specification's claims against these definitions.

Types that the audit consumes from its collaborators (action-coordinate
parsing and matching, workflow expressions, triggers, step bodies) are not
part of the audited source file; they are modelled from the specification,
each marked `Modelled from the spec:` in its doc comment.
-/

namespace CachePoisoning

/-- Modelled from the spec: an action coordinate referring to a repository,
with owner, repository name, optional subpath and optional pinned ref. -/
structure RepositoryUses where
  owner : String
  repo : String
  subpath : Option String
  gitRef : Option String
deriving DecidableEq

/-- Modelled from the spec: a step's parsed `uses` reference. Registry
lookups only consider the `Repository` variant. -/
inductive Uses where
  | Repository (r : RepositoryUses)
  | Local (path : String)
  | Docker (image : String)
deriving DecidableEq

/-- Splits a character list on a separator character (auxiliary for the
modelled coordinate parser). -/
def splitOnChar (c : Char) : List Char → List (List Char)
  | [] => [[]]
  | x :: xs =>
    let rest := splitOnChar c xs
    if x = c then [] :: rest
    else
      match rest with
      | [] => [[x]]
      | r :: rs => (x :: r) :: rs

/-- Modelled from the spec: `Uses::from_step` parses a step's declared
action reference string `owner/repo[/subpath][@ref]` into a coordinate, or
fails silently (local paths and docker references are not repository
coordinates; a reference missing owner or repository does not parse). -/
def Uses.from_step (s : String) : Option Uses :=
  let cs := s.data
  if cs.take 2 = ['.', '/'] then some (Uses.Local s)
  else if cs.take 9 = "docker://".data then some (Uses.Docker s)
  else
    let parts := splitOnChar '@' cs
    let path := parts.headD []
    let gitRef : Option String :=
      match parts with
      | _ :: r :: rs => some (String.mk (List.intercalate ['@'] (r :: rs)))
      | _ => none
    match splitOnChar '/' path with
    | owner :: repo :: rest =>
      if owner.isEmpty ∨ repo.isEmpty then none
      else
        some (Uses.Repository
          ⟨String.mk owner, String.mk repo,
           if rest.isEmpty then none
           else some (String.mk (List.intercalate ['/'] rest)),
           gitRef⟩)
    | _ => none

/-- Modelled from the spec: `RepositoryUses::matches` — two coordinates
refer to the same action iff owner, repository and subpath agree; the
pinned ref is ignored. -/
def RepositoryUses.matches (a b : RepositoryUses) : Bool :=
  a.owner == b.owner && a.repo == b.repo && a.subpath == b.subpath

/-- Modelled from the spec: `ExplicitExpr::from_curly` recognizes an
unresolved workflow expression written in the curly delimiter syntax and
returns its inner text, or fails on any other string. -/
def ExplicitExpr.from_curly (s : String) : Option String :=
  let cs := s.data
  if cs.take 3 = ['$', '\x7b', '\x7b'] ∧ cs.reverse.take 2 = ['\x7d', '\x7d'] ∧
      4 ≤ cs.length then
    some (String.mk (((cs.drop 3).reverse.drop 2).reverse))
  else none

/-- Modelled from the spec: a step's configuration-input mapping (`Env`),
an ordered mapping from input name to declared value, values rendered as
strings. -/
structure Env where
  entries : List (String × String)
deriving DecidableEq

/-- Lookup of the first value bound to a key. -/
def Env.get (e : Env) (k : String) : Option String :=
  (e.entries.find? (fun p => p.1 == k)).map Prod.snd

/-- The keys of the mapping, in declaration order. -/
def Env.keys (e : Env) : List String :=
  e.entries.map Prod.fst

/-- The value type that controls the activation/deactivation of caching. -/
inductive CacheControlValue where
  | Boolean
  | String
deriving DecidableEq

/-- The input that controls the behaviour of a configurable caching action:
opt-in means caching becomes enabled when the control value matches,
opt-out means it becomes disabled. -/
inductive CacheControlInput where
  | OptIn (n : String)
  | OptOut (n : String)
deriving DecidableEq

/-- The control-input name, regardless of polarity. -/
def CacheControlInput.name : CacheControlInput → String
  | .OptIn n => n
  | .OptOut n => n

/-- The general schema for a configurable cache-aware action. -/
structure ControllableCacheAction where
  uses : Uses
  control_input : CacheControlInput
  control_value : CacheControlValue
  caching_by_default : Bool
deriving DecidableEq

/-- A cache-aware action: configurable, or unconditionally caching. -/
inductive CacheAwareAction where
  | Configurable (c : ControllableCacheAction)
  | NotConfigurable (u : Uses)
deriving DecidableEq

/-- The coordinate of a cache-aware action. -/
def CacheAwareAction.uses : CacheAwareAction → Uses
  | .Configurable inner => inner.uses
  | .NotConfigurable inner => inner

/-- The list of known cache-aware actions (`KNOWN_CACHE_AWARE_ACTIONS`),
with the coordinates the source parses from literal strings written out as
repository coordinates. -/
def KNOWN_CACHE_AWARE_ACTIONS : List CacheAwareAction :=
  [ .Configurable ⟨.Repository ⟨"actions", "cache", none, none⟩,
      .OptOut "lookup-only", .Boolean, true⟩,
    .Configurable ⟨.Repository ⟨"actions", "setup-java", none, none⟩,
      .OptIn "cache", .String, false⟩,
    .Configurable ⟨.Repository ⟨"actions", "setup-go", none, none⟩,
      .OptIn "cache", .Boolean, true⟩,
    .Configurable ⟨.Repository ⟨"actions", "setup-node", none, none⟩,
      .OptIn "cache", .String, false⟩,
    .Configurable ⟨.Repository ⟨"actions", "setup-python", none, none⟩,
      .OptIn "cache", .String, false⟩,
    .Configurable ⟨.Repository ⟨"actions", "setup-dotnet", none, none⟩,
      .OptIn "cache", .Boolean, false⟩,
    .Configurable ⟨.Repository ⟨"astral-sh", "setup-uv", none, none⟩,
      .OptOut "enable-cache", .String, true⟩,
    .Configurable ⟨.Repository ⟨"Swatinem", "rust-cache", none, none⟩,
      .OptOut "lookup-only", .Boolean, true⟩,
    .Configurable ⟨.Repository ⟨"ruby", "setup-ruby", none, none⟩,
      .OptIn "bundler-cache", .Boolean, false⟩,
    .Configurable ⟨.Repository ⟨"PyO3", "maturin-action", none, none⟩,
      .OptIn "sccache", .Boolean, false⟩,
    .NotConfigurable (.Repository ⟨"Mozilla-Actions", "sccache-action", none, none⟩) ]

/-- The list of well-known publisher actions (`KNOWN_PUBLISHER_ACTIONS`).
The trailing space in the ECS entry is carried over from the source
literal. -/
def KNOWN_PUBLISHER_ACTIONS : List Uses :=
  [ .Repository ⟨"pypa", "gh-action-pypi-publish", none, none⟩,
    .Repository ⟨"rubygems", "release-gem", none, none⟩,
    .Repository ⟨"jreleaser", "release-action", none, none⟩,
    .Repository ⟨"goreleaser", "goreleaser-action", none, none⟩,
    .Repository ⟨"softprops", "action-gh-release", none, none⟩,
    .Repository ⟨"release-drafter", "release-drafter", none, none⟩,
    .Repository ⟨"googleapis", "release-please-action", none, none⟩,
    .Repository ⟨"docker", "build-push-action", none, none⟩,
    .Repository ⟨"redhat-actions", "push-to-registry", none, none⟩,
    .Repository ⟨"aws-actions", "amazon-ecs-deploy-task-definition ", none, none⟩,
    .Repository ⟨"aws-actions", "aws-cloudformation-github-deploy", none, none⟩,
    .Repository ⟨"Azure", "aci-deploy", none, none⟩,
    .Repository ⟨"Azure", "container-apps-deploy-action", none, none⟩,
    .Repository ⟨"Azure", "functions-action", none, none⟩,
    .Repository ⟨"Azure", "sql-action", none, none⟩,
    .Repository ⟨"cloudflare", "wrangler-action", none, none⟩,
    .Repository ⟨"google-github-actions", "deploy-appengine", none, none⟩,
    .Repository ⟨"google-github-actions", "deploy-cloudrun", none, none⟩,
    .Repository ⟨"google-github-actions", "deploy-cloud-functions", none, none⟩ ]

/-- The evaluator's per-step verdict (`CacheUsage`). -/
inductive CacheUsage where
  | ConditionalOptIn
  | DirectOptIn
  | DefaultActionBehaviour
  | AlwaysCache
deriving DecidableEq

/-- Modelled from the spec: a named workflow event; only `release` needs
to be distinguished by the audit, other events are carried by name. -/
inductive BareEvent where
  | Release
  | Push
  | PullRequest
  | Other (n : String)
deriving DecidableEq

/-- Modelled from the spec: an event entry of an event-to-filter mapping,
either carrying a filter body or declared without one. -/
inductive OptionalBody (α : Type) where
  | Body (body : α)
  | Default
deriving DecidableEq

/-- Modelled from the spec: filters attached to a `push` event. -/
structure PushBody where
  tag_filters : Option (List String)
  branch_filters : Option (List String)
deriving DecidableEq

/-- Modelled from the spec: the event-to-filter mapping form of a trigger.
Only the fields the audit and its claims mention are carried. -/
structure Events where
  push : OptionalBody PushBody
  release : OptionalBody (List String)
  pull_request : OptionalBody Unit
deriving DecidableEq

/-- Modelled from the spec: a workflow trigger — one bare event, a set of
bare events, or an event-to-filter mapping. -/
inductive Trigger where
  | BareEvent (e : BareEvent)
  | BareEvents (es : List BareEvent)
  | Events (es : Events)
deriving DecidableEq

/-- Modelled from the spec: a step's body — an action invocation with its
configuration-input mapping, or an inline script. -/
inductive StepBody where
  | uses (u : String) (w : Env)
  | run (script : String)
deriving DecidableEq

/-- Modelled from the spec: a step, identified by its position in the job,
exposing its body. -/
structure Step where
  idx : Nat
  body : StepBody
deriving DecidableEq

/-- Modelled from the spec: a step's parsed action coordinate, when the
step is an action invocation whose reference parses. -/
def Step.uses (s : Step) : Option Uses :=
  match s.body with
  | .uses u _ => Uses.from_step u
  | .run _ => none

/-- The detector's per-job output (`PublishingArtifactsScenario`). -/
inductive PublishingArtifactsScenario where
  | UsingTypicalWorkflowTrigger
  | UsingWellKnowPublisherAction (s : Step)
deriving DecidableEq

/-- Modelled from the spec: confidence levels of the shared finding model. -/
inductive Confidence where
  | Low
  | Medium
  | High
deriving DecidableEq

/-- Modelled from the spec: severity levels of the shared finding model. -/
inductive Severity where
  | Low
  | Medium
  | High
deriving DecidableEq

/-- Modelled from the spec: a source-location anchor with the YAML keys it
points at, its annotation text, and whether it is the primary location.
`stepIdx` is `none` for the workflow-level trigger location. -/
structure Location where
  stepIdx : Option Nat
  keys : List String
  annot : String
  primary : Bool
deriving DecidableEq

/-- Modelled from the spec: a finding — fixed confidence/severity plus its
location anchors. The builder's final step never fails for well-formed
input, so it is modelled as total. -/
structure Finding where
  confidence : Confidence
  severity : Severity
  locations : List Location
deriving DecidableEq

/-- Modelled from the spec: a job — its parent workflow's trigger plus its
ordered steps. -/
structure Job where
  on_ : Trigger
  steps : List Step
deriving DecidableEq

/-- Source function `trigger_used_when_publishing_artifacts`: does the
trigger imply a publishing context? -/
def trigger_used_when_publishing_artifacts : Trigger → Bool
  | .BareEvent e => e == BareEvent.Release
  | .BareEvents events => events.contains BareEvent.Release
  | .Events events =>
    match events.push with
    | .Body body => body.tag_filters.isSome
    | _ => false

/-- The publisher-registry membership test a step undergoes inside
`detected_well_known_publisher_step`. -/
def step_is_publisher (step : Step) : Bool :=
  match step.uses with
  | some (.Repository target_uses) =>
    KNOWN_PUBLISHER_ACTIONS.any (fun publisher =>
      match publisher with
      | .Repository well_known_uses => target_uses.matches well_known_uses
      | _ => false)
  | _ => false

/-- Source function `detected_well_known_publisher_step`: the first step
invoking a known publisher action. -/
def detected_well_known_publisher_step (steps : List Step) : Option Step :=
  steps.find? step_is_publisher

/-- Source function `is_job_publishing_artifacts`: the publishing-scenario
detector. -/
def is_job_publishing_artifacts (trigger : Trigger) (steps : List Step) :
    Option PublishingArtifactsScenario :=
  if trigger_used_when_publishing_artifacts trigger then
    some PublishingArtifactsScenario.UsingTypicalWorkflowTrigger
  else
    (detected_well_known_publisher_step steps).map
      PublishingArtifactsScenario.UsingWellKnowPublisherAction

/-- Source function `evaluate_default_action_behaviour`: the verdict when
the control input is absent. -/
def evaluate_default_action_behaviour (action : ControllableCacheAction) :
    Option CacheUsage :=
  if action.caching_by_default then some CacheUsage.DefaultActionBehaviour
  else none

/-- Source function `evaluate_user_defined_opt_in`: classifies the value
bound to the control input. The boolean literal arms carry the same value-shape guards
as the source match. -/
def evaluate_user_defined_opt_in (cache_control_input : String) (env : Env)
    (action : ControllableCacheAction) : Option CacheUsage :=
  match env.get cache_control_input with
  | none => none
  | some value =>
    if value == "true" && action.control_value == CacheControlValue.Boolean then
      some CacheUsage.DirectOptIn
    else if value == "false" && action.control_value == CacheControlValue.Boolean then
      none
    else
      match ExplicitExpr.from_curly value with
      | none =>
        if action.control_value == CacheControlValue.String then
          some CacheUsage.DirectOptIn
        else none
      | some _ => some CacheUsage.ConditionalOptIn

/-- Source function `usage_of_controllable_caching`: the evaluator for a
configurable cache-aware action. -/
def usage_of_controllable_caching (env : Env)
    (controllable : ControllableCacheAction) : Option CacheUsage :=
  let cache_control_input := env.keys.find? (fun k =>
    match controllable.control_input with
    | .OptIn inner => k == inner
    | .OptOut inner => k == inner)
  match cache_control_input with
  | none => evaluate_default_action_behaviour controllable
  | some key =>
    let declared_usage := evaluate_user_defined_opt_in key env controllable
    match declared_usage with
    | some CacheUsage.DirectOptIn =>
      match controllable.control_input with
      | .OptIn _ => declared_usage
      | .OptOut _ => none
    | _ => declared_usage

/-- Source function `evaluate_cache_usage`: registry lookup followed by
per-descriptor evaluation. -/
def evaluate_cache_usage (target_step : String) (env : Env) : Option CacheUsage :=
  match KNOWN_CACHE_AWARE_ACTIONS.find? (fun action =>
    match action.uses with
    | .Repository well_known_uses =>
      match Uses.from_step target_step with
      | some (.Repository target_uses) => target_uses.matches well_known_uses
      | _ => false
    | _ => false) with
  | none => none
  | some (.Configurable action) => usage_of_controllable_caching env action
  | some (.NotConfigurable _) => some CacheUsage.AlwaysCache

/-- The YAML key and annotation text attached to the cache anchor for each
verdict kind. -/
def cache_anchor_parts : CacheUsage → String × String
  | .AlwaysCache => ("uses", "caching always restored here")
  | .DefaultActionBehaviour => ("uses", "cache enabled by default here")
  | .DirectOptIn => ("with", "opt-in for caching here")
  | .ConditionalOptIn => ("with", "opt-in for caching might happen here")

/-- Source function `uses_cache_aware_step`: the finding synthesis for one
step under an established scenario. -/
def uses_cache_aware_step (step : Step)
    (scenario : PublishingArtifactsScenario) : Option Finding :=
  match step.body with
  | .run _ => none
  | .uses u w =>
    match evaluate_cache_usage u w with
    | none => none
    | some cache_usage =>
      let yaml_key := (cache_anchor_parts cache_usage).1
      let annot := (cache_anchor_parts cache_usage).2
      match scenario with
      | .UsingTypicalWorkflowTrigger =>
        some ⟨Confidence.Low, Severity.High,
          [⟨none, ["on"],
            "generally used when publishing artifacts generated at runtime", false⟩,
           ⟨some step.idx, [yaml_key], annot, true⟩]⟩
      | .UsingWellKnowPublisherAction publisher =>
        some ⟨Confidence.Low, Severity.High,
          [⟨some publisher.idx, ["uses"],
            "runtime artifacts usually published here", false⟩,
           ⟨some step.idx, [yaml_key], annot, true⟩]⟩

/-- Source function `audit_normal_job`: the audit entry point for one job. Absence of a
scenario yields an empty result, never an error. -/
def audit_normal_job (job : Job) : Except String (List Finding) :=
  match is_job_publishing_artifacts job.on_ job.steps with
  | none => Except.ok []
  | some scenario =>
    Except.ok (job.steps.filterMap (fun step => uses_cache_aware_step step scenario))

/-- The registry descriptor of `actions/cache` (opt-out polarity, boolean
shape, caching by default), used as a concrete test subject. -/
def cacheAction : ControllableCacheAction :=
  ⟨.Repository ⟨"actions", "cache", none, none⟩, .OptOut "lookup-only", .Boolean, true⟩

/-- The registry descriptor of `actions/setup-java` (opt-in polarity,
string shape, caching off by default), used as a concrete test subject. -/
def setupJavaAction : ControllableCacheAction :=
  ⟨.Repository ⟨"actions", "setup-java", none, none⟩, .OptIn "cache", .String, false⟩

/-- A concrete step invoking a known publisher action. -/
def pypiPublishStep : Step :=
  ⟨0, .uses "pypa/gh-action-pypi-publish@release/v1" ⟨[]⟩⟩

/-- A concrete step invoking a known cache-aware action with no inputs. -/
def cacheStep : Step :=
  ⟨1, .uses "actions/cache" ⟨[]⟩⟩

/-- A concrete job triggered by `pull_request` with only a cache-aware
step. -/
def pullRequestJob : Job :=
  ⟨.BareEvent .PullRequest, [cacheStep]⟩

/-- The trust-boundary anchor each scenario kind produces. -/
def trust_anchor : PublishingArtifactsScenario → Location
  | .UsingTypicalWorkflowTrigger =>
    ⟨none, ["on"],
     "generally used when publishing artifacts generated at runtime", false⟩
  | .UsingWellKnowPublisherAction p =>
    ⟨some p.idx, ["uses"], "runtime artifacts usually published here", false⟩

/-- The finding produced for `cacheStep` under the trigger-based scenario. -/
def cacheStepFinding : Finding :=
  ⟨Confidence.Low, Severity.High,
   [⟨none, ["on"],
     "generally used when publishing artifacts generated at runtime", false⟩,
    ⟨some 1, ["uses"], "cache enabled by default here", true⟩]⟩

theorem keys_find_aux (l : List (String × String)) (nm : String) :
    (l.map Prod.fst).find? (fun k => k == nm) =
      if ((l.find? (fun p => p.1 == nm)).map Prod.snd).isSome then some nm
      else none := by
  induction l with
  | nil => rfl
  | cons p rest ih =>
    by_cases hp : p.1 = nm
    · simp [List.map_cons, List.find?_cons, hp]
    · have hpb : (p.1 == nm) = false := by simpa using hp
      simp only [List.map_cons, List.find?_cons, hpb]
      exact ih

/-- Searching the input names for the control-input name succeeds exactly
when the mapping binds that name, and then returns the name itself. -/
theorem env_keys_find (env : Env) (nm : String) :
    env.keys.find? (fun k => k == nm) =
      if (env.get nm).isSome then some nm else none :=
  keys_find_aux env.entries nm

theorem find_eq_some_first {α : Type} (p : α → Bool) (xs : List α) (a : α)
    (h : xs.find? p = some a) :
    ∃ pre post, xs = pre ++ a :: post ∧
      (∀ x ∈ pre, p x = false) ∧ p a = true := by
  induction xs with
  | nil => simp [List.find?] at h
  | cons y ys ih =>
    cases hy : p y with
    | true =>
      rw [List.find?_cons_of_pos _ hy] at h
      cases h
      exact ⟨[], ys, rfl, by simp, hy⟩
    | false =>
      rw [List.find?_cons_of_neg _ (by simp [hy])] at h
      obtain ⟨pre, post, hxs, hpre, hpa⟩ := ih h
      refine ⟨y :: pre, post, by simp [hxs], ?_, hpa⟩
      intro x hx
      rcases List.mem_cons.mp hx with hx | hx
      · rw [hx]; exact hy
      · exact hpre x hx

/-- C6: for a configurable cache-aware action whose control input is not
bound by the step's configuration-input mapping, the evaluator yields the
active-by-default verdict exactly when the default-caching flag is set, and
no verdict otherwise (in particular for an empty mapping when the flag is
unset). -/
theorem c6_absent_control_input (action : ControllableCacheAction) (env : Env)
    (habsent : env.get action.control_input.name = none) :
    usage_of_controllable_caching env action =
      if action.caching_by_default then some CacheUsage.DefaultActionBehaviour
      else none := by
  obtain ⟨u, ci, cv, cbd⟩ := action
  cases ci <;>
    (simp only [CacheControlInput.name] at habsent
     simp only [usage_of_controllable_caching]
     rw [env_keys_find, habsent]
     rfl)

theorem c6_witness :
    usage_of_controllable_caching ⟨[]⟩ setupJavaAction =
      if setupJavaAction.caching_by_default then some CacheUsage.DefaultActionBehaviour
      else none :=
  c6_absent_control_input setupJavaAction ⟨[]⟩ rfl

/-- C8: the coordinate matcher reports two repository coordinates as the
same action whenever owner, repository and subpath agree, regardless of
their pinned refs. -/
theorem c8_matches_ignores_ref (a b : RepositoryUses)
    (ho : a.owner = b.owner) (hr : a.repo = b.repo) (hs : a.subpath = b.subpath) :
    a.matches b = true := by
  simp [RepositoryUses.matches, ho, hr, hs]

theorem c8_witness :
    Uses.from_step "actions/cache@v3" =
      some (Uses.Repository ⟨"actions", "cache", none, some "v3"⟩) ∧
    RepositoryUses.matches ⟨"actions", "cache", none, some "v3"⟩
      ⟨"actions", "cache", none, none⟩ = true :=
  ⟨by rfl, c8_matches_ignores_ref ⟨"actions", "cache", none, some "v3"⟩
    ⟨"actions", "cache", none, none⟩ rfl rfl rfl⟩

/-- C7: for any configurable cache-aware action, of either polarity, a
control-input value that is an unresolved curly-delimited workflow
expression yields the conditional-opt-in verdict. -/
theorem c7_expression_conditional (action : ControllableCacheAction) (env : Env)
    (v e : String)
    (hget : env.get action.control_input.name = some v)
    (hexpr : ExplicitExpr.from_curly v = some e) :
    usage_of_controllable_caching env action = some CacheUsage.ConditionalOptIn := by
  obtain ⟨u, ci, cv, cbd⟩ := action
  have hvt : (v == "true") = false := by
    cases hb : (v == "true") with
    | true =>
      exfalso
      have hv : v = "true" := by simpa using hb
      rw [hv] at hexpr
      exact Option.noConfusion hexpr
    | false => rfl
  have hvf : (v == "false") = false := by
    cases hb : (v == "false") with
    | true =>
      exfalso
      have hv : v = "false" := by simpa using hb
      rw [hv] at hexpr
      exact Option.noConfusion hexpr
    | false => rfl
  cases ci <;>
    (simp only [CacheControlInput.name] at hget
     simp only [usage_of_controllable_caching]
     rw [env_keys_find, hget]
     simp [evaluate_user_defined_opt_in, hget, hvt, hvf, hexpr])

theorem c7_witness :
    usage_of_controllable_caching
      ⟨[("cache", "$\x7b\x7b matrix.cache \x7d\x7d")]⟩ setupJavaAction =
      some CacheUsage.ConditionalOptIn :=
  c7_expression_conditional setupJavaAction
    ⟨[("cache", "$\x7b\x7b matrix.cache \x7d\x7d")]⟩
    "$\x7b\x7b matrix.cache \x7d\x7d" " matrix.cache " rfl rfl

/-- The control-input classifier reads the mapping only through the value
bound to the inspected input name. -/
theorem eval_opt_in_env_congr (nm : String) (env1 env2 : Env)
    (action : ControllableCacheAction) (hnm : env1.get nm = env2.get nm) :
    evaluate_user_defined_opt_in nm env1 action =
      evaluate_user_defined_opt_in nm env2 action := by
  unfold evaluate_user_defined_opt_in
  rw [hnm]

/-- C9: the evaluator's verdict for a configurable cache-aware action
depends only on the value bound to the descriptor's control-input name:
two configuration-input mappings agreeing there receive identical
verdicts, whatever other inputs they bind. -/
theorem c9_verdict_depends_only_on_control_input
    (action : ControllableCacheAction) (env1 env2 : Env)
    (h : env1.get action.control_input.name = env2.get action.control_input.name) :
    usage_of_controllable_caching env1 action =
      usage_of_controllable_caching env2 action := by
  obtain ⟨u, ci, cv, cbd⟩ := action
  cases ci with
  | OptIn inner =>
    simp only [CacheControlInput.name] at h
    simp only [usage_of_controllable_caching]
    rw [env_keys_find, env_keys_find, h]
    cases h2 : env2.get inner with
    | none => simp
    | some v =>
      have he := eval_opt_in_env_congr inner env1 env2
        ⟨u, CacheControlInput.OptIn inner, cv, cbd⟩ h
      simp [he]
  | OptOut inner =>
    simp only [CacheControlInput.name] at h
    simp only [usage_of_controllable_caching]
    rw [env_keys_find, env_keys_find, h]
    cases h2 : env2.get inner with
    | none => simp
    | some v =>
      have he := eval_opt_in_env_congr inner env1 env2
        ⟨u, CacheControlInput.OptOut inner, cv, cbd⟩ h
      simp [he]

theorem c9_witness :
    usage_of_controllable_caching
      ⟨[("cache", "npm"), ("node-version", "20")]⟩ setupJavaAction =
    usage_of_controllable_caching
      ⟨[("distribution", "temurin"), ("cache", "npm")]⟩ setupJavaAction :=
  c9_verdict_depends_only_on_control_input setupJavaAction
    ⟨[("cache", "npm"), ("node-version", "20")]⟩
    ⟨[("distribution", "temurin"), ("cache", "npm")]⟩ rfl

/-- C1 counterexample: for the opt-out, boolean-shape, caching-by-default
descriptor of `actions/cache`, binding the control input to the literal
`"false"` yields no verdict at all — not the active-by-default verdict the
claim derives from the default-caching flag. -/
theorem c1_counterexample :
    cacheAction.control_input = CacheControlInput.OptOut "lookup-only" ∧
    cacheAction.control_value = CacheControlValue.Boolean ∧
    cacheAction.caching_by_default = true ∧
    usage_of_controllable_caching ⟨[("lookup-only", "false")]⟩ cacheAction = none ∧
    usage_of_controllable_caching ⟨[("lookup-only", "false")]⟩ cacheAction ≠
      some CacheUsage.DefaultActionBehaviour := by
  refine ⟨rfl, rfl, rfl, rfl, ?_⟩
  intro hc
  exact Option.noConfusion hc

/-- C1 (amended): for a configurable cache-aware action with opt-out
polarity and boolean value shape, a control input bound to the literal
`"true"` yields no verdict (caching explicitly disabled), and a control
input bound to the literal `"false"` also yields no verdict — the boolean
literal special-casing treats `"false"` as an explicit opt-out regardless
of polarity, so the default-caching flag is never consulted when the
control input is present. -/
theorem c1_opt_out_boolean_literal (action : ControllableCacheAction)
    (nm : String) (env : Env)
    (hpol : action.control_input = CacheControlInput.OptOut nm)
    (hshape : action.control_value = CacheControlValue.Boolean)
    (hget : env.get nm = some "true" ∨ env.get nm = some "false") :
    usage_of_controllable_caching env action = none := by
  obtain ⟨u, ci, cv, cbd⟩ := action
  simp only at hpol hshape
  subst hpol
  subst hshape
  simp only [usage_of_controllable_caching]
  rw [env_keys_find]
  rcases hget with hg | hg <;>
    (rw [hg]
     simp [evaluate_user_defined_opt_in, hg])

theorem c1_witness :
    usage_of_controllable_caching ⟨[("lookup-only", "true")]⟩ cacheAction = none :=
  c1_opt_out_boolean_literal cacheAction "lookup-only"
    ⟨[("lookup-only", "true")]⟩ rfl rfl (Or.inl rfl)

/-- C2 counterexample: for the opt-in, string-shape descriptor of
`actions/setup-java`, the literal `"false"` is not special-cased: it is
classified as a direct signal and produces the direct-opt-in verdict,
instead of the no-verdict outcome the claim states. -/
theorem c2_counterexample :
    setupJavaAction.control_value = CacheControlValue.String ∧
    evaluate_user_defined_opt_in "cache" ⟨[("cache", "false")]⟩ setupJavaAction =
      some CacheUsage.DirectOptIn ∧
    usage_of_controllable_caching ⟨[("cache", "false")]⟩ setupJavaAction =
      some CacheUsage.DirectOptIn := by
  exact ⟨rfl, rfl, rfl⟩

/-- C2 (amended): for a configurable cache-aware action with string value
shape, a present control input is classified with no boolean
special-casing — the guards restrict the `"true"`/`"false"` arms to
boolean-shape descriptors — so every non-expression literal, including
`"true"` and `"false"`, gives the direct signal, and an unresolved
curly-delimited expression gives the conditional signal. -/
theorem c2_string_shape_classification (action : ControllableCacheAction)
    (nm : String) (env : Env) (v : String)
    (hshape : action.control_value = CacheControlValue.String)
    (hget : env.get nm = some v) :
    evaluate_user_defined_opt_in nm env action =
      some (if (ExplicitExpr.from_curly v).isSome then CacheUsage.ConditionalOptIn
            else CacheUsage.DirectOptIn) := by
  obtain ⟨u, ci, cv, cbd⟩ := action
  simp only at hshape
  subst hshape
  simp only [evaluate_user_defined_opt_in]
  rw [hget]
  cases hc : ExplicitExpr.from_curly v <;> simp [hc]

theorem c2_witness :
    evaluate_user_defined_opt_in "cache" ⟨[("cache", "npm")]⟩ setupJavaAction =
      some (if (ExplicitExpr.from_curly "npm").isSome then CacheUsage.ConditionalOptIn
            else CacheUsage.DirectOptIn) :=
  c2_string_shape_classification setupJavaAction "cache" ⟨[("cache", "npm")]⟩
    "npm" rfl rfl

/-- C3: the trigger-based check is tried first and wins when it matches;
when it does not match, the detector returns a publisher-step-based
scenario bound to the first step, in declaration order, whose action
coordinate matches a Publisher Registry entry (and no scenario if there is
none), and the audit of such a job proceeds to evaluate every step for
findings. -/
theorem c3_publisher_step_detection (trigger : Trigger) (steps : List Step) :
    (trigger_used_when_publishing_artifacts trigger = true →
      is_job_publishing_artifacts trigger steps =
        some PublishingArtifactsScenario.UsingTypicalWorkflowTrigger) ∧
    (trigger_used_when_publishing_artifacts trigger = false →
      is_job_publishing_artifacts trigger steps =
        (steps.find? step_is_publisher).map
          PublishingArtifactsScenario.UsingWellKnowPublisherAction) ∧
    (∀ s, detected_well_known_publisher_step steps = some s →
      ∃ pre post, steps = pre ++ s :: post ∧
        (∀ x ∈ pre, step_is_publisher x = false) ∧
        step_is_publisher s = true) ∧
    (trigger_used_when_publishing_artifacts trigger = false →
      ∀ s, detected_well_known_publisher_step steps = some s →
        audit_normal_job ⟨trigger, steps⟩ =
          Except.ok (steps.filterMap (fun step =>
            uses_cache_aware_step step
              (PublishingArtifactsScenario.UsingWellKnowPublisherAction s)))) := by
  refine ⟨?_, ?_, ?_, ?_⟩
  · intro ht
    simp [is_job_publishing_artifacts, ht]
  · intro ht
    simp [is_job_publishing_artifacts, ht, detected_well_known_publisher_step]
  · intro s hs
    exact find_eq_some_first step_is_publisher steps s hs
  · intro ht s hs
    simp only [audit_normal_job, is_job_publishing_artifacts, ht]
    rw [hs]
    simp

theorem c3_witness :
    is_job_publishing_artifacts (Trigger.BareEvent BareEvent.PullRequest)
      [pypiPublishStep, cacheStep] =
      some (PublishingArtifactsScenario.UsingWellKnowPublisherAction pypiPublishStep) := by
  have h := (c3_publisher_step_detection (Trigger.BareEvent BareEvent.PullRequest)
    [pypiPublishStep, cacheStep]).2.1 (by rfl)
  rw [h]
  rfl

/-- C5: the audit entry point always returns successfully; and for a job
whose trigger does not match the trigger-based check and whose steps
invoke no known publisher action, it returns the empty finding list,
whatever cache-aware actions the steps invoke. -/
theorem c5_audit_total_and_empty (job : Job) :
    (∃ fs, audit_normal_job job = Except.ok fs) ∧
    (trigger_used_when_publishing_artifacts job.on_ = false →
      detected_well_known_publisher_step job.steps = none →
      audit_normal_job job = Except.ok []) := by
  constructor
  · unfold audit_normal_job
    cases h : is_job_publishing_artifacts job.on_ job.steps with
    | none => exact ⟨[], rfl⟩
    | some sc => exact ⟨_, rfl⟩
  · intro ht hp
    simp [audit_normal_job, is_job_publishing_artifacts, ht, hp]

theorem c5_witness : audit_normal_job pullRequestJob = Except.ok [] :=
  (c5_audit_total_and_empty pullRequestJob).2 rfl rfl

/-- C10: for an event-to-filter mapping trigger, the trigger-based check
holds exactly when the push event carries a body with tag filters; it is
unaffected by the mapping's release entry, so release is recognized only
in the bare-event and event-set trigger forms. -/
theorem c10_events_trigger_push_tags_only (es : Events) :
    (trigger_used_when_publishing_artifacts (Trigger.Events es) = true ↔
      ∃ b, es.push = OptionalBody.Body b ∧ b.tag_filters.isSome = true) ∧
    (∀ r, trigger_used_when_publishing_artifacts
        (Trigger.Events ⟨es.push, r, es.pull_request⟩) =
      trigger_used_when_publishing_artifacts (Trigger.Events es)) ∧
    trigger_used_when_publishing_artifacts
      (Trigger.BareEvent BareEvent.Release) = true ∧
    (∀ events : List BareEvent,
      trigger_used_when_publishing_artifacts (Trigger.BareEvents events) = true ↔
        BareEvent.Release ∈ events) := by
  obtain ⟨p, rel, pr⟩ := es
  refine ⟨?_, ?_, rfl, ?_⟩
  · cases p with
    | Body b => simp [trigger_used_when_publishing_artifacts]
    | Default => simp [trigger_used_when_publishing_artifacts]
  · intro r
    rfl
  · intro events
    simp only [trigger_used_when_publishing_artifacts]
    exact List.elem_iff

theorem c10_witness :
    trigger_used_when_publishing_artifacts
      (Trigger.Events ⟨OptionalBody.Body ⟨some ["v*"], none⟩,
        OptionalBody.Default, OptionalBody.Default⟩) = true := by
  have h := (c10_events_trigger_push_tags_only
    ⟨OptionalBody.Body ⟨some ["v*"], none⟩,
     OptionalBody.Default, OptionalBody.Default⟩).1
  exact h.mpr ⟨⟨some ["v*"], none⟩, rfl, rfl⟩

/-- C4: every finding the rule emits has confidence low and severity high
and carries exactly two anchors: the trust-boundary anchor determined by
the scenario (workflow trigger for a trigger-based scenario, the publisher
step's action-reference field for a publisher-step-based one) and a primary
cache anchor on the evaluated step whose field is the action-reference
(`uses`) key for always-active and active-by-default verdicts and the
configuration-inputs (`with`) key for direct and conditional opt-in
verdicts. -/
theorem c4_finding_shape (step : Step) (scenario : PublishingArtifactsScenario)
    (f : Finding) (h : uses_cache_aware_step step scenario = some f) :
    f.confidence = Confidence.Low ∧ f.severity = Severity.High ∧
    ∃ u w usage, step.body = StepBody.uses u w ∧
      evaluate_cache_usage u w = some usage ∧
      f.locations = [trust_anchor scenario,
        ⟨some step.idx,
         [if usage == CacheUsage.AlwaysCache ||
             usage == CacheUsage.DefaultActionBehaviour
          then "uses" else "with"],
         (cache_anchor_parts usage).2, true⟩] := by
  obtain ⟨idx, body⟩ := step
  cases body with
  | run s => simp [uses_cache_aware_step] at h
  | uses u w =>
    simp only [uses_cache_aware_step] at h
    cases he : evaluate_cache_usage u w with
    | none =>
      rw [he] at h
      exact Option.noConfusion h
    | some usage =>
      rw [he] at h
      cases scenario with
      | UsingTypicalWorkflowTrigger =>
        simp only [Option.some.injEq] at h
        subst h
        refine ⟨rfl, rfl, u, w, usage, rfl, he, ?_⟩
        cases usage <;> rfl
      | UsingWellKnowPublisherAction p =>
        simp only [Option.some.injEq] at h
        subst h
        refine ⟨rfl, rfl, u, w, usage, rfl, he, ?_⟩
        cases usage <;> rfl

theorem c4_witness :
    cacheStepFinding.confidence = Confidence.Low ∧
    cacheStepFinding.severity = Severity.High ∧
    ∃ u w usage, cacheStep.body = StepBody.uses u w ∧
      evaluate_cache_usage u w = some usage ∧
      cacheStepFinding.locations =
        [trust_anchor PublishingArtifactsScenario.UsingTypicalWorkflowTrigger,
         ⟨some cacheStep.idx,
          [if usage == CacheUsage.AlwaysCache ||
              usage == CacheUsage.DefaultActionBehaviour
           then "uses" else "with"],
          (cache_anchor_parts usage).2, true⟩] :=
  c4_finding_shape cacheStep
    PublishingArtifactsScenario.UsingTypicalWorkflowTrigger cacheStepFinding
    (by rfl)

end CachePoisoning
